import Mathlib

/-!
Verification development for the gzdoom speedrun timer
(src/gzdoom_speedrun_timer.py).

The Python source is shallowly embedded below.  Conventions used
throughout the embedding:

* `timedelta` values are total microsecond counts (`Int`); Python's
  normalized `.seconds` / `.microseconds` attributes are recovered with
  euclidean division, which agrees with Python's floor division and
  non-negative modulo for the positive divisors used here.
* `datetime` values are absolute microsecond timestamps (`Int`);
  subtracting two of them yields a `timedelta`, exactly as in Python.
* Python's `None` / attribute-absence sentinels become `Option`;
  a missing attribute that the source tests with `try/except
  AttributeError` is an `Option` field holding `none`.
* Python truthiness of an optional `timedelta` (`if self.session_time:`)
  is `truthy`: `none` and `some 0` are falsy.
* Raised exceptions become `Except PyErr`; callers that catch an
  exception match on the `.error` constructor.
* Python list indexing (which accepts negative indices that wrap from
  the end) is `pyIdx` / `pyIdxN`; `list.insert` is `pyInsert`.
* `Chapter._current_level` / `_previous_level` hold references into
  `Chapter.levels`; the embedding stores the (stable) position in the
  list instead, and writes through it when the source mutates the
  referenced level in place.
-/

deriving instance DecidableEq for Except

/-- Python error kinds raised by the embedded code. -/
inductive PyErr where
  | wrongChapter
  | attributeError
  | runtimeError
  | indexError
  | valueError
  | serializedEmpty
deriving DecidableEq, Repr, Inhabited

/-- Python list indexing with negative-index wrap-around, returning the
normalized position together with the element. -/
def pyIdxN {α : Type} (l : List α) (i : Int) : Option (Nat × α) :=
  let j : Int := if i < 0 then (l.length : Int) + i else i
  if 0 ≤ j then (l.get? j.toNat).map (fun a => (j.toNat, a)) else none

/-- Python list indexing with negative-index wrap-around. -/
def pyIdx {α : Type} (l : List α) (i : Int) : Option α :=
  (pyIdxN l i).map (·.2)

/-- Python `list.insert i a`: insert before position `i`, appending when
`i` is at least the length. -/
def pyInsert {α : Type} (l : List α) (i : Nat) (a : α) : List α :=
  l.take i ++ a :: l.drop i

/-- Python truthiness of an optional `timedelta`: `None` and the zero
duration are falsy. -/
def truthy : Option Int → Bool
  | none => false
  | some v => v != 0

/-- Digit-string parse, the core of Python `int()` on the strings this
program feeds it. -/
def parseDigits? (cs : List Char) : Option Nat :=
  if cs ≠ [] ∧ cs.all Char.isDigit then
    some (cs.foldl (fun a c => a * 10 + (c.toNat - 48)) 0)
  else none

/-- Python `int()` on a string: optional leading minus sign followed by
digits (the only shapes reachable in this program); anything else raises
`ValueError`, i.e. `none`. -/
def pyInt? (cs : List Char) : Option Int :=
  match cs with
  | '-' :: rest => (parseDigits? rest).map (fun n => -(n : Int))
  | _ => (parseDigits? cs).map (fun n => (n : Int))

/-- Characters Python's `str.strip` removes. -/
def pyIsSpace (c : Char) : Bool :=
  c = ' ' || c = '\t' || c = '\n' || c = '\r' || c = '\x0b' || c = '\x0c'

/-- Python `str.strip()`: drop leading and trailing whitespace. -/
def pyStrip (cs : List Char) : List Char :=
  ((cs.dropWhile pyIsSpace).reverse.dropWhile pyIsSpace).reverse

/-- Fuel-driven worker for `pySplit`; the fuel is an upper bound on the
number of characters consumed, so it never runs out when primed with the
input length. -/
def pySplitAux (sep : List Char) : Nat → List Char → List Char → List (List Char)
  | 0, cs, acc => [acc.reverse ++ cs]
  | fuel + 1, cs, acc =>
      match cs with
      | [] => [acc.reverse]
      | c :: rest =>
          if sep.isPrefixOf cs then
            acc.reverse :: pySplitAux sep fuel (cs.drop sep.length) []
          else pySplitAux sep fuel rest (c :: acc)

/-- Python `str.split(sep)` for a non-empty separator: non-overlapping,
left-to-right. -/
def pySplit (s sep : String) : List String :=
  (pySplitAux sep.data s.data.length s.data []).map String.mk

/-- Python `str.zfill`: left-pad with zeros to the given width. -/
def zfill (s : String) (w : Nat) : String :=
  if s.length ≥ w then s
  else String.mk (List.replicate (w - s.length) '0') ++ s

/-- Python `str.rjust width "0"`. -/
def rjustZero (s : String) (w : Nat) : String := zfill s w

/-- `timedelta.seconds`: the normalized seconds-within-day attribute. -/
def td_seconds (t : Int) : Int := (t.ediv 1000000).emod 86400

/-- `timedelta.microseconds`: the normalized microseconds attribute. -/
def td_microseconds (t : Int) : Int := t.emod 1000000

/-- `round` (half-to-even) of `micros * 0.0001`, i.e. of `micros/10000`,
used by `pretty_time` to render hundredths of a second. -/
def roundHundredths (micros : Int) : Int :=
  let q := micros.ediv 10000
  let r := micros.emod 10000
  if r > 5000 then q + 1
  else if r < 5000 then q
  else if q.emod 2 = 0 then q else q + 1

/-- `LevelChapter.pretty_time`: format a `timedelta` as `02:04.60`. -/
def pretty_time (delta : Int) : String :=
  let secs := td_seconds delta
  let micros := td_microseconds delta
  zfill (toString (secs.ediv 60)) 2 ++ ":" ++ zfill (toString (secs.emod 60)) 2
    ++ "." ++ rjustZero (toString (roundHundredths micros)) 2

/-- The mutable state shared by `Level` and `Chapter` (the Python base
class `LevelChapter`). -/
structure LCState where
  session_time : Option Int
  personal_best : Option Int
  diff : Option String
  modified : Bool
  orig_pb : Option Int
  backup_pb : Option Int
  backup_session_time : Option Int
deriving DecidableEq, Repr, Inhabited

namespace LCState

/-- `LevelChapter._set_diff`: recompute the signed formatted delta
between `session_time` and `personal_best`. -/
def set_diff (s : LCState) : LCState :=
  match s.session_time, s.personal_best with
  | some st, some pb =>
      if st < pb then { s with diff := some ("-" ++ pretty_time (pb - st)) }
      else { s with diff := some ("+" ++ pretty_time (st - pb)) }
  | _, _ => { s with diff := none }

/-- `LevelChapter.__init__` state: blank session, the given PB, diff
computed, unmodified, PB remembered as the originally loaded value. -/
def init (personal_best : Option Int) : LCState :=
  set_diff { session_time := none, personal_best := personal_best,
             diff := none, modified := false, orig_pb := personal_best,
             backup_pb := none, backup_session_time := none }

/-- `LevelChapter.revert_session_time`: swap the live session time with
its one-slot backup, then recompute the diff. -/
def revert_session_time (s : LCState) : LCState :=
  set_diff { s with backup_session_time := s.session_time,
                    session_time := s.backup_session_time }

/-- `LevelChapter.revert_personal_best`: swap the live PB with its
backup, recompute `modified` against the originally loaded PB, then
recompute the diff. -/
def revert_personal_best (s : LCState) : LCState :=
  let s := { s with backup_pb := s.personal_best,
                    personal_best := s.backup_pb }
  let s := if s.personal_best = s.orig_pb then { s with modified := false }
           else { s with modified := true }
  set_diff s

/-- `LevelChapter.delete_session_time`: if a truthy session time is
present, move it into the backup slot and clear it; otherwise leave the
state alone. -/
def delete_session_time (s : LCState) : LCState :=
  if truthy s.session_time then
    { s with backup_session_time := s.session_time, session_time := none }
  else s

/-- `LevelChapter.delete_personal_best`: if a truthy PB is present, move
it into the backup slot and clear it; otherwise leave the state alone. -/
def delete_personal_best (s : LCState) : LCState :=
  if truthy s.personal_best then
    { s with backup_pb := s.personal_best, personal_best := none }
  else s

/-- The comparison made by `LevelChapter._is_session_pb`.  The
`none`/`some` case is unreachable at the call sites (Python would raise
`TypeError`): the helper is only invoked right after `session_time` was
assigned a concrete `timedelta`. -/
def sessionBeatsPb : Option Int → Option Int → Bool
  | _, none => true
  | some st, some pb => st < pb
  | none, some _ => false

/-- `LevelChapter._is_session_pb`: if the session time beats the PB (or
no PB exists), back the PB up, replace it with the session time, mark
modified, and report `true`. -/
def is_session_pb (s : LCState) : LCState × Bool :=
  if sessionBeatsPb s.session_time s.personal_best then
    ({ s with backup_pb := s.personal_best, personal_best := s.session_time,
              modified := true }, true)
  else (s, false)

end LCState

/-- `RecordHolder.chapter_names`. -/
def chapter_names : List String :=
  ["Knee-Deep In The Dead", "The Shores of Hell", "Inferno",
   "Thy Flesh Consumed", "Doom 2"]

/-- `RecordHolder.get_chapter_name_by_code`: `chapter_names[int(code[1])-1]`,
falling back to the Doom 2 name when `int(code[1])` raises `ValueError`;
a too-short code or an out-of-range index raises, i.e. yields `none`. -/
def get_chapter_name_by_code (code : String) : Option String :=
  match code.data.get? 1 with
  | none => none
  | some c =>
      if c.isDigit then pyIdx chapter_names ((c.toNat : Int) - 48 - 1)
      else pyIdx chapter_names 4

/-- `RecordHolder.get_chapter_name_by_number`. -/
def get_chapter_name_by_number (number : Int) : Option String :=
  pyIdx chapter_names (number - 1)

/-- `RecordHolder.get_chapter_number_by_code`: `int(code[1])`, or 5 when
that raises `ValueError`; `none` when the code is too short
(`IndexError`). -/
def get_chapter_number_by_code (code : String) : Option Int :=
  match code.data.get? 1 with
  | none => none
  | some c => if c.isDigit then some ((c.toNat : Int) - 48) else some 5

/-- `Level._doom1_secret_exits`. -/
def doom1_secret_exits : List Int := [3, 5, 6, 2]

/-- `Level._level_names`. -/
def level_names : List (List String) :=
  [["Hangar", "Nuclear Plant", "Toxin Refinery", "Command Control",
    "Phobos Lab", "Central Processing", "Computer Station",
    "Phobos Anomaly", "Military Base"],
   ["Deimos Anomaly", "Containment Area", "Refinery", "Deimos Lab",
    "Command Center", "Halls of The Damned", "Spawning Vats",
    "Tower of Babel", "Fortress of Mystery"],
   ["Hell Keep", "Slough of Despair", "Pandemonium", "House of Pain",
    "Unholy Cathedral", "Mt. Erebus", "Limbo", "Dis", "Warrens"],
   ["Hell Beneath", "Perfect Hatred", "Sever the Wicked", "Unruly Evil",
    "They Will Repent", "Against Thee Wickedly", "And Hell Followed",
    "Unto the Cruel", "Fear"],
   ["Entryway", "Underhalls", "The Gantlet", "The Focus",
    "The Waste Tunnels", "The Crusher", "Dead Simple",
    "Tricks and Traps", "The Pit", "Refueling Base",
    "\"O\" of Destruction!", "The Factory", "Downtown",
    "The Inmost Dens", "Industrial Zone", "Suburbs", "Tenements",
    "The Courtyard", "The Citadel", "Gotcha!", "Nirvana",
    "The Catacombs", "Barrels o\x27 Fun", "The Chasm", "Bloodfalls",
    "The Abandoned Mines", "Monster Condo", "The Spirit World",
    "The Living End", "Icon of Sin", "Wolfenstein", "Grosse"]]

/-- A single doom level (`class Level`).  `secret_exit` / `secret` are
`none` where the source leaves the `False` sentinel; `race_start` models
the transient `_race_start` attribute. -/
structure Level where
  code : String
  lc : LCState
  secret_exit : Option String
  secret : Option String
  chapter_name : String
  final : Bool
  chapter_number : Int
  level_number : Int
  name : String
  race_start : Option Int
deriving DecidableEq, Repr, Inhabited

namespace Level

/-- `Level.__init__`: parse the code, derive chapter/level numbers and
the secret-routing links, and look up the display name.  `none` models
any exception escaping the constructor (unknown code shape, failed
`int()`, or an out-of-range table index). -/
def init (code : String) (personal_best : Option Int) : Option Level := do
  let chapter_name ← get_chapter_name_by_code code
  let c0 ← code.data.get? 0
  if c0 = 'E' then
    -- doom1 E1M1 format
    let c1 ← code.data.get? 1
    let chapter_number ← if c1.isDigit then some ((c1.toNat : Int) - 48) else none
    let c3 ← code.data.get? 3
    let level_number ← if c3.isDigit then some ((c3.toNat : Int) - 48) else none
    let (secret, secret_exit) ←
      if level_number = 9 then do
        let e ← pyIdx doom1_secret_exits (chapter_number - 1)
        some (some ("E" ++ toString chapter_number ++ "M" ++ toString (e + 1)),
              (none : Option String))
      else do
        let e ← pyIdx doom1_secret_exits (chapter_number - 1)
        if level_number = e then
          some ((none : Option String),
                some ("E" ++ toString chapter_number ++ "M9"))
        else some ((none : Option String), (none : Option String))
    let final := level_number = 8
    let row ← pyIdx level_names (chapter_number - 1)
    let name ← pyIdx row (level_number - 1)
    some { code := code, lc := LCState.init personal_best,
           secret_exit := secret_exit, secret := secret,
           chapter_name := chapter_name, final := final,
           chapter_number := chapter_number, level_number := level_number,
           name := name, race_start := none }
  else if c0 = 'M' then
    -- doom 2 MAP01 format
    let chapter_number : Int := 5
    let level_number ← pyInt? (code.data.drop 3)
    let (secret, secret_exit) :=
      if level_number = 15 then ((none : Option String), some "MAP31")
      else if level_number = 31 then (some "MAP16", some "MAP32")
      else if level_number = 32 then (some "MAP16", (none : Option String))
      else (none, none)
    let final := level_number = 30
    let row ← pyIdx level_names (chapter_number - 1)
    let name ← pyIdx row (level_number - 1)
    some { code := code, lc := LCState.init personal_best,
           secret_exit := secret_exit, secret := secret,
           chapter_name := chapter_name, final := final,
           chapter_number := chapter_number, level_number := level_number,
           name := name, race_start := none }
  else none

/-- `Level.start_timer`: record the race start (silently overwriting any
timer already running, as the source does). -/
def start_timer (l : Level) (start_time : Int) : Level :=
  { l with race_start := some start_time }

/-- `Level.stop_timer`: compute the session time from the race start
(backing the previous session time up), recompute the diff, clear the
race start, and apply the PB rule; `RuntimeError` when no timer was
started. -/
def stop_timer (l : Level) (stop_time : Int) : Except PyErr (Level × Bool) :=
  match l.race_start with
  | none => .error .runtimeError
  | some rs =>
      let lc := { l.lc with session_time := some (stop_time - rs),
                            backup_session_time := l.lc.session_time }
      let lc := LCState.set_diff lc
      let (lc, isPb) := LCState.is_session_pb lc
      .ok ({ l with lc := lc, race_start := none }, isPb)

/-- `Level.abort_timer`: discard the running timer; `RuntimeError` when
none was started. -/
def abort_timer (l : Level) : Except PyErr Level :=
  match l.race_start with
  | none => .error .runtimeError
  | some _ => .ok { l with race_start := none }

/-- Wrapper for the inherited `revert_session_time`. -/
def revert_session_time (l : Level) : Level :=
  { l with lc := LCState.revert_session_time l.lc }

/-- Wrapper for the inherited `revert_personal_best`. -/
def revert_personal_best (l : Level) : Level :=
  { l with lc := LCState.revert_personal_best l.lc }

/-- Wrapper for the inherited `delete_session_time`. -/
def delete_session_time (l : Level) : Level :=
  { l with lc := LCState.delete_session_time l.lc }

/-- Wrapper for the inherited `delete_personal_best`. -/
def delete_personal_best (l : Level) : Level :=
  { l with lc := LCState.delete_personal_best l.lc }

end Level

/-- An operation applied to a `Level` timer. -/
inductive LevelOp where
  | start (t : Int)
  | stop (t : Int)
deriving DecidableEq, Repr

/-- Apply one timer operation to a `Level`; a raised exception leaves
the state unchanged (the source raises before mutating anything). -/
def Level.applyOp (l : Level) (op : LevelOp) : Level :=
  match op with
  | .start t => l.start_timer t
  | .stop t => match l.stop_timer t with
      | .ok (l', _) => l'
      | .error _ => l

/-- Apply a sequence of timer operations to a `Level`. -/
def Level.applyOps (l : Level) (ops : List LevelOp) : Level :=
  ops.foldl Level.applyOp l

/-- A single doom chapter (`class Chapter`).  `previous_level` and
`current_level` are positions into `levels`, standing for the object
references `_previous_level` / `_current_level` of the source. -/
structure Chapter where
  chapter_number : Int
  lc : LCState
  name : String
  levels : List Level
  valid_sequence : Bool
  previous_level : Option Nat
  current_level : Option Nat
deriving DecidableEq, Repr, Inhabited

namespace Chapter

/-- `Chapter._is_doom1`. -/
def is_doom1 (c : Chapter) : Bool := c.chapter_number < 5

/-- The blank-`Level` filling loop of `Chapter.__init__`: for each level
number `i`, when `levels[i-1].level_number != i`, insert a freshly built
blank level at position `i` (the source inserts at `i`, not `i-1`);
`none` models an `IndexError` (list shorter than the range) or a failed
`Level` construction. -/
def fillLoop (mk : Nat → Option Level) : List Nat → List Level → Option (List Level)
  | [], ls => some ls
  | i :: rest, ls =>
      match ls.get? (i - 1) with
      | none => none
      | some l =>
          if l.level_number = (i : Int) then fillLoop mk rest ls
          else
            match mk i with
            | none => none
            | some nl => fillLoop mk rest (pyInsert ls i nl)

/-- Blank level builder for a doom1 chapter. -/
def mkBlankDoom1 (chapter_number : Int) (i : Nat) : Option Level :=
  Level.init ("E" ++ toString chapter_number ++ "M" ++ toString i) none

/-- Blank level builder for the doom2 chapter. -/
def mkBlankDoom2 (i : Nat) : Option Level :=
  Level.init ("MAP" ++ zfill (toString i) 2) none

/-- `Chapter.__init__`: look the chapter name up, take the provided
levels (topping missing numbers up with blanks) or build a fully blank
sequence, and start with an invalid sequence and no previous level.
A non-`None` empty list is falsy in Python, hence also builds the fully
blank sequence. -/
def init (chapter_number : Int) (levels : Option (List Level))
    (personal_best : Option Int) : Option Chapter := do
  let name ← get_chapter_name_by_number chapter_number
  let lvls ←
    match levels with
    | some (l :: ls) =>
        if chapter_number < 5 then
          fillLoop (mkBlankDoom1 chapter_number) (List.range' 1 9) (l :: ls)
        else
          fillLoop mkBlankDoom2 (List.range' 1 32) (l :: ls)
    | _ =>
        if chapter_number < 5 then
          (List.range' 1 9).mapM (mkBlankDoom1 chapter_number)
        else
          (List.range' 1 32).mapM mkBlankDoom2
  some { chapter_number := chapter_number, lc := LCState.init personal_best,
         name := name, levels := lvls, valid_sequence := false,
         previous_level := none, current_level := none }

/-- The `Level` currently referenced by `_previous_level`, if any. -/
def prevLevelRef (c : Chapter) : Option Level :=
  c.previous_level.bind (fun i => c.levels.get? i)

/-- `getattr(self._previous_level, "level_number", 1)`. -/
def prevNumber (c : Chapter) : Int :=
  match c.prevLevelRef with
  | none => 1
  | some p => p.level_number

/-- Whether `code` is among the previous level's `secret_exit` and
`secret` codes (`getattr` yields `None` when no previous level exists,
and a string never equals `None` or `False`). -/
def prevSecretMatch (c : Chapter) (code : String) : Bool :=
  match c.prevLevelRef with
  | none => false
  | some p => p.secret_exit = some code || p.secret = some code

/-- `Chapter._get_level`: check the code belongs to this chapter
(`WrongChapter` otherwise), parse the level number out of the code, and
index into `levels` (with Python's negative wrap-around); returns the
normalized position together with the level. -/
def resolve_level (c : Chapter) (code : String) : Except PyErr (Nat × Level) :=
  match get_chapter_number_by_code code with
  | none => .error .indexError
  | some n =>
      if n ≠ c.chapter_number then .error .wrongChapter
      else
        let part := if c.is_doom1 then (pySplit code "M").get? 1
                    else (pySplit code "MAP").get? 1
        match part with
        | none => .error .indexError
        | some p =>
            match pyInt? p.data with
            | none => .error .valueError
            | some i =>
                match pyIdxN c.levels (i - 1) with
                | none => .error .indexError
                | some (j, lvl) => .ok (j, lvl)

/-- `Chapter.start_timer`: resolve the level, start its timer, and
update the sequence validity: starting the first level resets the
sequence to valid with no previous level; from a valid sequence, a level
that is neither the successor of the previous level (an absent previous
level counting as number 1) nor one of its secret codes invalidates the
sequence; an invalid sequence stays invalid. -/
def start_timer (c : Chapter) (start_time : Int) (code : String) :
    Except PyErr (Chapter × Level) :=
  match c.resolve_level code with
  | .error e => .error e
  | .ok (idx, lvl0) =>
      let lvl := Level.start_timer lvl0 start_time
      let levels := c.levels.set idx lvl
      if lvl.level_number = 1 then
        let c' := { c with levels := levels, current_level := some idx,
                           valid_sequence := true, previous_level := none }
        .ok (c', lvl)
      else if c.valid_sequence then
        if lvl.level_number != c.prevNumber + 1 && !(c.prevSecretMatch lvl.code) then
          let c' := { c with levels := levels, current_level := some idx,
                             valid_sequence := false }
          .ok (c', lvl)
        else
          .ok ({ c with levels := levels, current_level := some idx }, lvl)
      else
        .ok ({ c with levels := levels, current_level := some idx }, lvl)

/-- The chapter aggregate session sum: the sum of the session times of
all levels with a truthy session time.  The source routes this through
`timedelta.total_seconds` floats; at microsecond granularity and the
magnitudes in scope the round trip through `timedelta(seconds=...)` is
exact, so the embedding sums the microsecond counts directly. -/
def sessionSum (ls : List Level) : Int :=
  ((ls.filter (fun x => truthy x.lc.session_time)).filterMap
    (fun x => x.lc.session_time)).sum

/-- The result dict of `Chapter.stop_timer`. -/
structure StopResult where
  level : Level
  is_level_pb : Bool
  is_chapter_session : Bool
  is_chapter_pb : Bool
deriving DecidableEq, Repr, Inhabited

/-- `Chapter.stop_timer`: stop the active level's timer
(`AttributeError` when none is active); when the stopped level is final
and the sequence is valid, set the chapter session time to the levels'
session sum (backing the old value up), recompute the chapter diff and
apply the chapter-level PB rule; record the stopped level as the
previous level.  The two inner `error` branches are unreachable:
`current_level` always indexes `levels` and the current level always
holds a race start. -/
def stop_timer (c : Chapter) (stop_time : Int) :
    Except PyErr (Chapter × StopResult) :=
  match c.current_level with
  | none => .error .attributeError
  | some idx =>
      match c.levels.get? idx with
      | none => .error .indexError
      | some lvl0 =>
          match Level.stop_timer lvl0 stop_time with
          | .error e => .error e
          | .ok (lvl, is_level_pb) =>
              let levels := c.levels.set idx lvl
              if lvl.final && c.valid_sequence then
                let lc := { c.lc with
                  backup_session_time := c.lc.session_time,
                  session_time := some (sessionSum levels) }
                let lc := LCState.set_diff lc
                let (lc, is_chapter_pb) := LCState.is_session_pb lc
                let c' := { c with levels := levels, lc := lc,
                                   current_level := none,
                                   previous_level := some idx }
                .ok (c', ⟨lvl, is_level_pb, true, is_chapter_pb⟩)
              else
                let c' := { c with levels := levels, current_level := none,
                                   previous_level := some idx }
                .ok (c', ⟨lvl, is_level_pb, false, false⟩)

/-- `Chapter.abort_timer`: abort the active level's timer if one exists
(no current level is a silent no-op), then clear the previous level and
invalidate the sequence.  When the current level unexpectedly holds no
race start, `Level.abort_timer`'s `RuntimeError` propagates before those
two assignments run (unreachable in practice). -/
def abort_timer (c : Chapter) : Except PyErr Chapter :=
  match c.current_level with
  | none => .ok { c with previous_level := none, valid_sequence := false }
  | some idx =>
      match c.levels.get? idx with
      | none => .error .indexError
      | some lvl =>
          match lvl.race_start with
          | none => .error .runtimeError
          | some _ =>
              .ok { c with
                levels := c.levels.set idx { lvl with race_start := none },
                current_level := none, previous_level := none,
                valid_sequence := false }

/-- `Chapter.is_modified`: this chapter or any of its levels carries a
new PB worth saving. -/
def is_modified (c : Chapter) : Bool :=
  c.lc.modified || c.levels.any (fun l => l.lc.modified)

end Chapter

/-- An operation applied to a `Chapter`. -/
inductive ChapterOp where
  | start (t : Int) (code : String)
  | stop (t : Int)
  | abort
deriving DecidableEq, Repr

/-- Apply one operation to a `Chapter`; a raised exception leaves the
state unchanged (in every reachable error case the source raises before
mutating the chapter). -/
def Chapter.applyOp (c : Chapter) (op : ChapterOp) : Chapter :=
  match op with
  | .start t code => match c.start_timer t code with
      | .ok (c', _) => c'
      | .error _ => c
  | .stop t => match c.stop_timer t with
      | .ok (c', _) => c'
      | .error _ => c
  | .abort => match c.abort_timer with
      | .ok c' => c'
      | .error _ => c

/-- Apply a sequence of operations to a `Chapter`. -/
def Chapter.applyOps (c : Chapter) (ops : List ChapterOp) : Chapter :=
  ops.foldl Chapter.applyOp c

/-- The serialized form of a `Level` (`Level.serialize`). -/
structure SerLevel where
  code : String
  pb_seconds : Int
  pb_microseconds : Int
deriving DecidableEq, Repr, Inhabited

/-- The serialized form of a `Chapter` (`Chapter.serialize`). -/
structure SerChapter where
  chapter_number : Int
  pb_seconds : Option Int
  pb_microseconds : Option Int
  levels : List SerLevel
deriving DecidableEq, Repr, Inhabited

/-- `Level.serialize`: the PB split into its normalized seconds and
microseconds attributes; `SerializedEmpty` when no PB is set (the source
reaches that via the `AttributeError` on `None.seconds`). -/
def Level.serialize (l : Level) : Except PyErr SerLevel :=
  match l.lc.personal_best with
  | none => .error .serializedEmpty
  | some p => .ok ⟨l.code, td_seconds p, td_microseconds p⟩

/-- `Chapter.serialize`: serialize every level with a truthy PB;
`SerializedEmpty` when the chapter PB is falsy and no level qualified;
the chapter PB fields use `getattr(..., None)`, so they are `None`-safe. -/
def Chapter.serialize (c : Chapter) : Except PyErr SerChapter := do
  let sls ← (c.levels.filter (fun x => truthy x.lc.personal_best)).mapM
    Level.serialize
  if !truthy c.lc.personal_best && sls.isEmpty then .error .serializedEmpty
  else
    .ok ⟨c.chapter_number, c.lc.personal_best.map td_seconds,
         c.lc.personal_best.map td_microseconds, sls⟩

/-- The GUI configuration blob, opaque to persistence except for
equality comparison. -/
abbrev GuiConfig := List (String × String)

/-- The in-memory database layout handed to `FileDude.save`:
category → difficulty → chapters, in iteration order. -/
abbrev RunsDB := List (String × List (String × List Chapter))

/-- The serialized `runs` structure written to disk. -/
abbrev SerRuns := List (String × List (String × List SerChapter))

/-- Python dict lookup on an insertion-ordered association list. -/
def assocFind {α : Type} (l : List (String × α)) (k : String) : Option α :=
  (l.find? (fun p => p.1 = k)).map (·.2)

/-- Python dict assignment: replace in place when the key exists,
append otherwise. -/
def assocSet {α : Type} (l : List (String × α)) (k : String) (v : α) :
    List (String × α) :=
  if (l.find? (fun p => p.1 = k)).isSome then
    l.map (fun p => if p.1 = k then (k, v) else p)
  else l ++ [(k, v)]

/-- The `try append / except KeyError` block of `FileDude.save`: append
the chapter when the category and difficulty keys both exist; otherwise
assign `serialized["runs"][category] = {difficulty: [chapter]}` — note
that when the category exists but the difficulty does not, this
assignment REPLACES the whole category dict (the source's fallback). -/
def save_add (runs : SerRuns) (category difficulty : String)
    (sc : SerChapter) : SerRuns :=
  match assocFind runs category with
  | none => assocSet runs category [(difficulty, [sc])]
  | some dmap =>
      match assocFind dmap difficulty with
      | none => assocSet runs category [(difficulty, [sc])]
      | some lst => assocSet runs category (assocSet dmap difficulty (lst ++ [sc]))

/-- One chapter step of the `FileDude.save` loop: skip chapters whose
serialization signals empty; otherwise fold the chapter in and let it
contribute its `is_modified` flag. -/
def save_chapter_step (category difficulty : String)
    (acc : SerRuns × Bool) (ch : Chapter) : SerRuns × Bool :=
  match ch.serialize with
  | .error _ => acc
  | .ok sc => (save_add acc.1 category difficulty sc, acc.2 || ch.is_modified)

/-- The nested category/difficulty/chapter iteration of `FileDude.save`. -/
def save_fold (runs : RunsDB) (acc : SerRuns × Bool) : SerRuns × Bool :=
  runs.foldl
    (fun acc cd =>
      cd.2.foldl
        (fun acc dc => dc.2.foldl (save_chapter_step cd.1 dc.1) acc) acc)
    acc

/-- The outcome of `FileDude.save`: the serialized `runs` structure and
whether a write was performed. -/
structure SaveOutcome where
  written : Bool
  runs : SerRuns
deriving DecidableEq, Repr, Inhabited

/-- The initial modified flag of `FileDude.save`: whether the GUI
config differs from the one held at the last load; `old_gui = none`
models the `AttributeError` of a save with no prior load, which forces
a write. -/
def gui_changed (gui_config : GuiConfig) (old_gui : Option GuiConfig) : Bool :=
  match old_gui with
  | none => true
  | some o => gui_config != o

/-- `FileDude.save`: start from whether the GUI config changed since the
last load, serialize every non-empty chapter, and write only when
something was modified. -/
def FileDude.save (runs : RunsDB) (gui_config : GuiConfig)
    (old_gui : Option GuiConfig) : SaveOutcome :=
  let (sr, m) := save_fold runs ([], gui_changed gui_config old_gui)
  ⟨m, sr⟩

/-- Decoder state of `DoomRunner.run`: the `header_found` and
`skip_next_header` flags (`header_found = true` is the AfterHeader state
of the specification, `false` is Scanning). -/
structure DecoderState where
  header_found : Bool
  skip_next_header : Bool
deriving DecidableEq, Repr, Inhabited

/-- Events emitted by the decoder loop of `DoomRunner.run`. -/
inductive DoomEvent where
  | level_started (code name : String)
  | level_finished
  | player_died
deriving DecidableEq, Repr

/-- The 40-dash separator line gzdoom prints around announcements. -/
def headerLine : String := "----------------------------------------\n"

/-- The literal secret-reveal line. -/
def secretLine : String := "A secret is revealed!\n"

/-- The literal end-of-level script line. -/
def unloadingLine : String := "Starting all scripts of type 13 (Unloading)\n"

/-- The literal death script line. -/
def deathLine : String := "Starting all scripts of type 3 (Death)\n"

/-- `line.decode("utf-8").strip().split(" - ")` unpacked into exactly
two values; `none` models the caught `ValueError`. -/
def split_code_name (line : String) : Option (String × String) :=
  match pySplit (String.mk (pyStrip line.data)) " - " with
  | [code, name] => some (code, name)
  | _ => none

/-- One iteration of the `DoomRunner.run` loop on one line: returns the
next state and the events emitted.  Mirrors the source exactly; in
particular, a line that fails to split as `code - name` while
`header_found` is set hits a `continue` BEFORE `header_found = False`,
so the decoder stays in the AfterHeader state. -/
def decoder_step (s : DecoderState) (line : String) :
    DecoderState × List DoomEvent :=
  if s.header_found then
    if line = "\n" then (s, [])
    else if line = secretLine then
      ({ header_found := false, skip_next_header := true }, [])
    else
      match split_code_name line with
      | none => (s, [])
      | some (code, name) =>
          ({ s with header_found := false }, [.level_started code name])
  else if line = unloadingLine then (s, [.level_finished])
  else if line = deathLine then (s, [.player_died])
  else if line = headerLine then
    if s.skip_next_header then ({ s with skip_next_header := false }, [])
    else ({ s with header_found := true }, [])
  else (s, [])

/-- Run the decoder from a given state over a list of lines,
accumulating emitted events. -/
def decoder_run_from (s : DecoderState) (lines : List String) :
    DecoderState × List DoomEvent :=
  lines.foldl
    (fun acc line =>
      let (s', es) := decoder_step acc.1 line
      (s', acc.2 ++ es))
    (s, [])

/-- Run the decoder from its initial state (both flags clear). -/
def decoder_run (lines : List String) : DecoderState × List DoomEvent :=
  decoder_run_from ⟨false, false⟩ lines

section LevelChecks

example : (Level.init "E1M1" none).map (·.name) = some "Hangar" := by decide
example : (Level.init "E1M3" none).map (·.secret_exit) = some (some "E1M9") := by decide
example : (Level.init "E1M9" none).map (·.secret) = some (some "E1M4") := by decide
example : (Level.init "E1M8" none).map (·.final) = some true := by decide
example : (Level.init "MAP15" none).map (·.secret_exit) = some (some "MAP31") := by decide
example : (Level.init "MAP31" none).map (fun l => (l.secret, l.secret_exit))
    = some (some "MAP16", some "MAP32") := by decide
example : (Level.init "MAP30" none).map (·.final) = some true := by decide
example : (Level.init "MAP32" none).map (·.name) = some "Grosse" := by decide
example : Level.init "X1M1" none = none := by decide

/-- A blank first chapter, used in concrete checks below. -/
def chapterE1 : Chapter := (Chapter.init 1 none none).getD default

example : chapterE1.levels.length = 9 := by decide
example : chapterE1.levels.map (·.code)
    = ["E1M1", "E1M2", "E1M3", "E1M4", "E1M5", "E1M6", "E1M7", "E1M8", "E1M9"] := by
  decide
example : (chapterE1.start_timer 0 "MAP01").isOk = false := by decide
example : ((chapterE1.start_timer 0 "E1M1").toOption.map (·.1.valid_sequence))
    = some true := by decide
example :
    ((chapterE1.applyOps [.start 0 "E1M1", .stop 4, .start 5 "E1M2"]).valid_sequence)
    = true := by decide
example :
    ((chapterE1.applyOps [.start 0 "E1M1", .stop 4, .start 5 "E1M4"]).valid_sequence)
    = false := by decide
example :
    ((chapterE1.applyOps [.start 0 "E1M3", .stop 4, .start 5 "E1M9"]).valid_sequence)
    = false := by decide
example :
    ((chapterE1.applyOps
        [.start 0 "E1M1", .stop 1, .start 2 "E1M2", .stop 3,
         .start 4 "E1M3", .stop 5, .start 6 "E1M9"]).valid_sequence)
    = true := by decide

end LevelChecks

section LCStateChecks

example : (LCState.init (some 5)).modified = false := by decide
example : (LCState.delete_personal_best (LCState.init (some 5))).personal_best = none := by
  decide
example :
    (LCState.is_session_pb { LCState.init (some 5) with session_time := some 3 }).2 = true := by
  decide
example :
    (LCState.is_session_pb { LCState.init (some 5) with session_time := some 5 }).2 = false := by
  decide
example : pretty_time 124600000 = "02:04.60" := by decide

example : decoder_run [headerLine, "\n", "E1M2 - Nuclear Plant\n", headerLine]
    = (⟨true, false⟩, [.level_started "E1M2" "Nuclear Plant"]) := by decide
example : decoder_run [unloadingLine] = (⟨false, false⟩, [.level_finished]) := by decide
example : decoder_run [deathLine] = (⟨false, false⟩, [.player_died]) := by decide
example : split_code_name "E1M9 - Military Base\n" = some ("E1M9", "Military Base") := by
  decide
example : split_code_name "A - B - C\n" = none := by decide
example :
    ((Chapter.init 1 none (some 61000000)).getD default).serialize
    = .ok ⟨1, some 61, some 0, []⟩ := by decide
example : ((Chapter.init 1 none none).getD default).serialize
    = .error .serializedEmpty := by decide

end LCStateChecks

/-! ## Helper lemmas -/

/-- `_set_diff` only rewrites `diff`; every other field is untouched. -/
theorem LCState.set_diff_frame (s : LCState) :
    (s.set_diff).session_time = s.session_time ∧
    (s.set_diff).personal_best = s.personal_best ∧
    (s.set_diff).modified = s.modified ∧
    (s.set_diff).orig_pb = s.orig_pb ∧
    (s.set_diff).backup_pb = s.backup_pb ∧
    (s.set_diff).backup_session_time = s.backup_session_time := by
  unfold LCState.set_diff
  rcases s.session_time with _ | st <;> rcases s.personal_best with _ | pb <;>
    (simp; try (split <;> simp))

/-- The result of `_is_session_pb`: the updated state and flag as a
function of the comparison. -/
theorem LCState.is_session_pb_spec (s : LCState) :
    (LCState.sessionBeatsPb s.session_time s.personal_best = true →
      s.is_session_pb =
        ({ s with backup_pb := s.personal_best,
                  personal_best := s.session_time, modified := true }, true)) ∧
    (LCState.sessionBeatsPb s.session_time s.personal_best = false →
      s.is_session_pb = (s, false)) := by
  unfold LCState.is_session_pb
  constructor <;> intro h <;> simp [h]

/-- The truthy-filtered session sum equals the sum with absent session
times contributing zero. -/
theorem Chapter.sessionSum_eq_total (ls : List Level) :
    Chapter.sessionSum ls = (ls.map (fun x => x.lc.session_time.getD 0)).sum := by
  induction ls with
  | nil => rfl
  | cons x xs ih =>
      unfold Chapter.sessionSum at ih ⊢
      rw [List.map_cons, List.sum_cons, List.filter_cons]
      rcases h : x.lc.session_time with _ | v
      · rw [if_neg (by decide)]
        simp [ih]
      · by_cases hv : v = 0
        · subst hv
          rw [if_neg (by decide)]
          simp [ih]
        · rw [if_pos (by simp [truthy, hv])]
          simp [List.filterMap_cons, h, ih]

/-! ## Claim theorems -/

/-- C10: `revert_session_time` and `delete_session_time` never change
the personal best, its backup slot, the originally loaded PB, or the
modified flag; `revert_personal_best` and `delete_personal_best` never
change the session time or its backup slot.  Stated on the shared
`LevelChapter` state, which is exactly the mutable state both `Level`
and `Chapter` inherit these operations on. -/
theorem C10_session_pb_frame (s : LCState) :
    ((s.revert_session_time).personal_best = s.personal_best ∧
     (s.revert_session_time).backup_pb = s.backup_pb ∧
     (s.revert_session_time).orig_pb = s.orig_pb ∧
     (s.revert_session_time).modified = s.modified) ∧
    ((s.delete_session_time).personal_best = s.personal_best ∧
     (s.delete_session_time).backup_pb = s.backup_pb ∧
     (s.delete_session_time).orig_pb = s.orig_pb ∧
     (s.delete_session_time).modified = s.modified) ∧
    ((s.revert_personal_best).session_time = s.session_time ∧
     (s.revert_personal_best).backup_session_time = s.backup_session_time) ∧
    ((s.delete_personal_best).session_time = s.session_time ∧
     (s.delete_personal_best).backup_session_time = s.backup_session_time) := by
  refine ⟨?_, ?_, ?_, ?_⟩
  · unfold LCState.revert_session_time
    have h := LCState.set_diff_frame
      { s with backup_session_time := s.session_time,
               session_time := s.backup_session_time }
    exact ⟨h.2.1, h.2.2.2.2.1, h.2.2.2.1, h.2.2.1⟩
  · unfold LCState.delete_session_time
    split <;> simp
  · simp only [LCState.revert_personal_best]
    split <;>
      exact ⟨(LCState.set_diff_frame _).1, (LCState.set_diff_frame _).2.2.2.2.2⟩
  · unfold LCState.delete_personal_best
    split <;> simp

/-- C5 counterexample: a `Level`/`Chapter` state freshly loaded with a
personal best of 5 µs, after one `delete_personal_best`, has
`modified = false` although its personal best (now absent) differs from
the originally loaded one — the claimed biconditional fails on a
reachable state, because `delete_personal_best` never updates
`modified`. -/
theorem C5_counterexample :
    (LCState.delete_personal_best (LCState.init (some 5))).modified = false ∧
    (LCState.delete_personal_best (LCState.init (some 5))).personal_best ≠
      (LCState.delete_personal_best (LCState.init (some 5))).orig_pb := by
  decide

/-- C5 (amended): the biconditional "modified iff personal best differs
from the originally loaded one" is established by `revert_personal_best`
(which recomputes `modified` from exactly that comparison), while
`delete_personal_best`, `delete_session_time` and `revert_session_time`
leave `modified` unchanged — it is not an invariant of every
operation. -/
theorem C5_modified_flag (s : LCState) :
    ((s.revert_personal_best).modified = true ↔
      (s.revert_personal_best).personal_best ≠ (s.revert_personal_best).orig_pb) ∧
    (s.delete_personal_best).modified = s.modified ∧
    (s.delete_session_time).modified = s.modified ∧
    (s.revert_session_time).modified = s.modified := by
  refine ⟨?_, ?_, ?_, ?_⟩
  · simp only [LCState.revert_personal_best]
    split
    · rename_i heq
      have hf := LCState.set_diff_frame
        { session_time := s.session_time, personal_best := s.backup_pb,
          diff := s.diff, modified := false, orig_pb := s.orig_pb,
          backup_pb := s.personal_best,
          backup_session_time := s.backup_session_time }
      rw [hf.2.2.1, hf.2.1, hf.2.2.2.1]
      simp_all
    · rename_i heq
      have hf := LCState.set_diff_frame
        { session_time := s.session_time, personal_best := s.backup_pb,
          diff := s.diff, modified := true, orig_pb := s.orig_pb,
          backup_pb := s.personal_best,
          backup_session_time := s.backup_session_time }
      rw [hf.2.2.1, hf.2.1, hf.2.2.2.1]
      simp_all
  · unfold LCState.delete_personal_best
    split <;> rfl
  · unfold LCState.delete_session_time
    split <;> rfl
  · exact (LCState.set_diff_frame _).2.2.1

/-- C6 counterexample: a reachable state with no live session time but a
non-empty backup slot (obtained from a fresh level by start, stop at 7 µs,
then delete).  The claim says `delete_session_time` followed by
`revert_session_time` leaves such a state unchanged; in fact the pair
moves the backed-up 7 µs back into the live slot. -/
theorem C6_counterexample :
    (Level.revert_session_time (Level.delete_session_time
        (Level.delete_session_time
          (((Level.init "E1M1" none).getD default).applyOps
            [.start 0, .stop 7]))))
      ≠ Level.delete_session_time
          (((Level.init "E1M1" none).getD default).applyOps
            [.start 0, .stop 7]) := by
  decide

/-- C6 (amended): delete-then-revert restores the deleted value when the
live value was present and non-zero (Python truthiness); when the live
value is absent or zero the delete is a no-op, so the pair acts as a
bare revert and swaps the backup into the live slot — it is not a no-op
unless the backup is empty too.  Stated for both the session-time pair
and the personal-best pair on the shared `LevelChapter` state. -/
theorem C6_delete_then_revert (s : LCState) :
    ((s.delete_session_time).revert_session_time).session_time
        = (if truthy s.session_time then s.session_time
           else s.backup_session_time) ∧
    ((s.delete_session_time).revert_session_time).backup_session_time
        = (if truthy s.session_time then none else s.session_time) ∧
    ((s.delete_personal_best).revert_personal_best).personal_best
        = (if truthy s.personal_best then s.personal_best
           else s.backup_pb) ∧
    ((s.delete_personal_best).revert_personal_best).backup_pb
        = (if truthy s.personal_best then none else s.personal_best) := by
  refine ⟨?_, ?_, ?_, ?_⟩
  · unfold LCState.delete_session_time
    split <;>
      simpa using ((LCState.set_diff_frame _).1)
  · unfold LCState.delete_session_time
    split <;>
      simpa using ((LCState.set_diff_frame _).2.2.2.2.2)
  · unfold LCState.delete_personal_best
    split <;>
    · simp only [LCState.revert_personal_best]
      split <;> simpa using ((LCState.set_diff_frame _).2.1)
  · unfold LCState.delete_personal_best
    split <;>
    · simp only [LCState.revert_personal_best]
      split <;> simpa using ((LCState.set_diff_frame _).2.2.2.2.1)

/-- C2 counterexample: from the start state, a header line followed by a
line that is not blank, not the secret-reveal message, and not splittable
as `code - name` leaves the decoder with `header_found = true` — it
stays in AfterHeader (the source's `continue` skips the
`header_found = False` reset), contradicting the claim that it returns
to Scanning. -/
theorem C2_counterexample :
    decoder_run [headerLine, "malformed announcement\n"]
      = (⟨true, false⟩, []) := by
  decide

/-- C2 (amended): in the AfterHeader state, a line that is not blank,
not the secret-reveal message, and cannot be split into `code - name`
emits no event and leaves the decoder state completely unchanged — it
REMAINS in AfterHeader and retries the next line, rather than returning
to Scanning. -/
theorem C2_malformed_line_stays (s : DecoderState) (line : String)
    (hh : s.header_found = true) (hb : line ≠ "\n")
    (hs : line ≠ secretLine) (hm : split_code_name line = none) :
    decoder_step s line = (s, []) := by
  unfold decoder_step
  rw [hh, if_pos rfl, if_neg hb, if_neg hs, hm]

/-- C2 witness: the amended theorem applied to the concrete AfterHeader
state and a concrete malformed line. -/
theorem C2_witness :
    (⟨true, false⟩ : DecoderState).header_found = true ∧
    "malformed announcement\n" ≠ "\n" ∧
    "malformed announcement\n" ≠ secretLine ∧
    split_code_name "malformed announcement\n" = none ∧
    decoder_step ⟨true, false⟩ "malformed announcement\n"
      = (⟨true, false⟩, []) :=
  ⟨rfl, by decide, by decide, by decide,
   C2_malformed_line_stays ⟨true, false⟩ "malformed announcement\n" rfl
     (by decide) (by decide) (by decide)⟩

/-- The five-line input of C9: header, secret reveal, header, blank,
level announcement. -/
def secretRevealSeq : List String :=
  [headerLine, secretLine, headerLine, "\n", "E1M9 - Military Base\n"]

/-- C9 counterexample: the five-line sequence of the claim emits NO
events at all — the header following the secret-reveal message is
consumed by the skip flag, so the announcement line arrives while the
decoder is Scanning and is ignored; the claim promised exactly one
LevelStarted. -/
theorem C9_counterexample :
    decoder_run secretRevealSeq = (⟨false, false⟩, []) := by
  decide

/-- C9 (amended): the five-line sequence [dashes, secret message,
dashes, blank, announcement] emits no events (the header after the
secret message produces no event and does not enter AfterHeader); with
one further header line before the blank, i.e. [dashes, secret message,
dashes, dashes, blank, announcement], exactly one
LevelStarted(E1M9, Military Base) is emitted. -/
theorem C9_secret_reveal_sequence :
    decoder_run secretRevealSeq = (⟨false, false⟩, []) ∧
    decoder_run [headerLine, secretLine, headerLine, headerLine, "\n",
                 "E1M9 - Military Base\n"]
      = (⟨false, false⟩, [.level_started "E1M9" "Military Base"]) := by
  constructor <;> decide

/-- Projection of `_is_session_pb`: the returned flag is exactly the
session-beats-PB comparison. -/
theorem LCState.is_session_pb_snd (s : LCState) :
    (s.is_session_pb).2 = LCState.sessionBeatsPb s.session_time s.personal_best := by
  unfold LCState.is_session_pb
  split <;> simp_all

/-- Projection of `_is_session_pb` when the session wins. -/
theorem LCState.is_session_pb_fst_true (s : LCState)
    (h : LCState.sessionBeatsPb s.session_time s.personal_best = true) :
    (s.is_session_pb).1
      = { s with backup_pb := s.personal_best,
                 personal_best := s.session_time, modified := true } := by
  unfold LCState.is_session_pb
  rw [if_pos h]

/-- Projection of `_is_session_pb` when the session does not win. -/
theorem LCState.is_session_pb_fst_false (s : LCState)
    (h : LCState.sessionBeatsPb s.session_time s.personal_best = false) :
    (s.is_session_pb).1 = s := by
  unfold LCState.is_session_pb
  rw [if_neg (by simp [h])]

/-- Unfolding equation for `Level.stop_timer` when a race start is
present, with the result expressed through projections. -/
theorem Level.stop_timer_eq (l : Level) (t rs : Int)
    (h : l.race_start = some rs) :
    l.stop_timer t =
      .ok ({ l with
               lc := (LCState.is_session_pb (LCState.set_diff
                 { l.lc with session_time := some (t - rs),
                             backup_session_time := l.lc.session_time })).1,
               race_start := none },
           (LCState.is_session_pb (LCState.set_diff
                 { l.lc with session_time := some (t - rs),
                             backup_session_time := l.lc.session_time })).2) := by
  unfold Level.stop_timer
  rw [h]

/-- C4: a completed attempt is a personal best iff no PB existed or the
new session time is strictly smaller; on a PB the old value moves to the
backup slot, the PB becomes the session time and `modified` is set; and
across any sequence of timer operations the personal best never
increases. -/
theorem C4_pb_rule_and_monotonicity :
    (∀ (l : Level) (t rs : Int), l.race_start = some rs →
      ∃ l' b, l.stop_timer t = .ok (l', b) ∧
        l'.lc.session_time = some (t - rs) ∧
        (b = true ↔ (l.lc.personal_best = none ∨
          ∃ p, l.lc.personal_best = some p ∧ t - rs < p)) ∧
        (b = true → l'.lc.backup_pb = l.lc.personal_best ∧
          l'.lc.personal_best = some (t - rs) ∧ l'.lc.modified = true) ∧
        (b = false → l'.lc.personal_best = l.lc.personal_best)) ∧
    (∀ (l : Level) (ops : List LevelOp) (p : Int),
      l.lc.personal_best = some p →
      ∃ q, (l.applyOps ops).lc.personal_best = some q ∧ q ≤ p) := by
  constructor
  · intro l t rs h
    rw [Level.stop_timer_eq l t rs h]
    set s1 : LCState :=
      { l.lc with
          session_time := some (t - rs),
          backup_session_time := l.lc.session_time } with hs1
    have hfr := LCState.set_diff_frame s1
    have hsess : s1.set_diff.session_time = some (t - rs) := hfr.1
    have hpb : s1.set_diff.personal_best = l.lc.personal_best := hfr.2.1
    have hflag : (s1.set_diff.is_session_pb).2
        = LCState.sessionBeatsPb (some (t - rs)) l.lc.personal_best := by
      rw [LCState.is_session_pb_snd, hsess, hpb]
    refine ⟨_, _, rfl, ?_, ?_, ?_, ?_⟩
    · show (s1.set_diff.is_session_pb).1.session_time = some (t - rs)
      by_cases hb : LCState.sessionBeatsPb s1.set_diff.session_time
          s1.set_diff.personal_best = true
      · rw [LCState.is_session_pb_fst_true _ hb]
        exact hsess
      · rw [LCState.is_session_pb_fst_false _ (by simpa using hb)]
        exact hsess
    · show (s1.set_diff.is_session_pb).2 = true ↔ _
      rw [hflag]
      rcases hc : l.lc.personal_best with _ | p <;>
        simp [LCState.sessionBeatsPb]
    · intro hbt
      have hb : LCState.sessionBeatsPb s1.set_diff.session_time
          s1.set_diff.personal_best = true := by
        rw [← LCState.is_session_pb_snd]; exact hbt
      show (s1.set_diff.is_session_pb).1.backup_pb = _ ∧
        (s1.set_diff.is_session_pb).1.personal_best = _ ∧
        (s1.set_diff.is_session_pb).1.modified = true
      rw [LCState.is_session_pb_fst_true _ hb]
      exact ⟨hpb, hsess, rfl⟩
    · intro hbf
      have hb : LCState.sessionBeatsPb s1.set_diff.session_time
          s1.set_diff.personal_best = false := by
        rw [← LCState.is_session_pb_snd]; exact hbf
      show (s1.set_diff.is_session_pb).1.personal_best = _
      rw [LCState.is_session_pb_fst_false _ hb]
      exact hpb
  · intro l ops
    induction ops generalizing l with
    | nil => exact fun p hp => ⟨p, hp, le_refl p⟩
    | cons op rest ih =>
        intro p hp
        have hstep : ∃ q, (l.applyOp op).lc.personal_best = some q ∧ q ≤ p := by
          cases op with
          | start t => exact ⟨p, hp, le_refl p⟩
          | stop t =>
              rcases hrs : l.race_start with _ | rs
              · refine ⟨p, ?_, le_refl p⟩
                simp [Level.applyOp, Level.stop_timer, hrs, hp]
              · have happ : l.applyOp (.stop t)
                    = { l with
                          lc := (LCState.is_session_pb (LCState.set_diff
                            { l.lc with
                                session_time := some (t - rs),
                                backup_session_time := l.lc.session_time })).1,
                          race_start := none } := by
                  simp only [Level.applyOp]
                  rw [Level.stop_timer_eq l t rs hrs]
                rw [happ]
                set s1 : LCState :=
                  { l.lc with
                      session_time := some (t - rs),
                      backup_session_time := l.lc.session_time } with hs1
                have hfr := LCState.set_diff_frame s1
                by_cases hb : LCState.sessionBeatsPb s1.set_diff.session_time
                    s1.set_diff.personal_best = true
                · have hlt : t - rs < p := by
                    have := hb
                    rw [hfr.1, hfr.2.1, hp] at this
                    simpa [LCState.sessionBeatsPb] using this
                  refine ⟨t - rs, ?_, le_of_lt hlt⟩
                  show (s1.set_diff.is_session_pb).1.personal_best = some (t - rs)
                  rw [LCState.is_session_pb_fst_true _ hb]
                  exact hfr.1
                · refine ⟨p, ?_, le_refl p⟩
                  show (s1.set_diff.is_session_pb).1.personal_best = some p
                  rw [LCState.is_session_pb_fst_false _ (by simpa using hb)]
                  rw [hfr.2.1]
                  exact hp
        obtain ⟨q, hq, hqp⟩ := hstep
        obtain ⟨q2, hq2, hq2q⟩ := ih (l.applyOp op) q hq
        refine ⟨q2, ?_, le_trans hq2q hqp⟩
        simpa [Level.applyOps] using hq2

/-- A level loaded with a 10 µs personal best, used as concrete witness
input. -/
def levelE1M1pb : Level := (Level.init "E1M1" (some 10)).getD default

/-- The same level with a running timer started at time 0. -/
def levelE1M1pbStarted : Level := levelE1M1pb.start_timer 0

/-- C4 witness: the PB rule and the monotonicity bound instantiated at a
concrete started level, stopped at time 5. -/
theorem C4_witness :
    levelE1M1pbStarted.race_start = some 0 ∧
    (∃ l' b, levelE1M1pbStarted.stop_timer 5 = .ok (l', b) ∧
      l'.lc.session_time = some (5 - 0) ∧
      (b = true ↔ (levelE1M1pbStarted.lc.personal_best = none ∨
        ∃ p, levelE1M1pbStarted.lc.personal_best = some p ∧ 5 - 0 < p)) ∧
      (b = true → l'.lc.backup_pb = levelE1M1pbStarted.lc.personal_best ∧
        l'.lc.personal_best = some (5 - 0) ∧ l'.lc.modified = true) ∧
      (b = false →
        l'.lc.personal_best = levelE1M1pbStarted.lc.personal_best)) ∧
    levelE1M1pb.lc.personal_best = some 10 ∧
    (∃ q, (levelE1M1pb.applyOps [.start 0, .stop 5]).lc.personal_best
        = some q ∧ q ≤ 10) :=
  ⟨rfl,
   C4_pb_rule_and_monotonicity.1 levelE1M1pbStarted 5 0 rfl,
   by decide,
   C4_pb_rule_and_monotonicity.2 levelE1M1pb [.start 0, .stop 5] 10 (by decide)⟩

/-- `Chapter.stop_timer` never changes `valid_sequence`. -/
theorem Chapter.stop_timer_valid (c : Chapter) (t : Int) (c' : Chapter)
    (r : Chapter.StopResult) (h : c.stop_timer t = .ok (c', r)) :
    c'.valid_sequence = c.valid_sequence := by
  unfold Chapter.stop_timer at h
  split at h
  · cases h
  · split at h
    · cases h
    · split at h
      · cases h
      · split at h
        · simp only [Except.ok.injEq, Prod.mk.injEq] at h
          obtain ⟨hc, -⟩ := h
          subst hc
          rfl
        · simp only [Except.ok.injEq, Prod.mk.injEq] at h
          obtain ⟨hc, -⟩ := h
          subst hc
          rfl

/-- A successful `Chapter.abort_timer` always leaves `valid_sequence`
false. -/
theorem Chapter.abort_timer_valid (c : Chapter) (c' : Chapter)
    (h : c.abort_timer = .ok c') : c'.valid_sequence = false := by
  unfold Chapter.abort_timer at h
  split at h
  · simp only [Except.ok.injEq] at h
    subst h
    rfl
  · split at h
    · cases h
    · split at h
      · cases h
      · simp only [Except.ok.injEq] at h
        subst h
        rfl

/-- C7: starting a chapter's first level always makes the sequence valid
and clears the previous level; from a valid sequence, starting another
level keeps validity exactly when its number is one more than the
previous level's (an absent previous level counting as 1) or its code is
one of the previous level's secret codes; and once invalid, the sequence
can only become valid again by a start of a level numbered 1. -/
theorem C7_sequence_validity :
    (∀ (c : Chapter) (t : Int) (code : String) (c' : Chapter) (l : Level),
      c.start_timer t code = .ok (c', l) → l.level_number = 1 →
      c'.valid_sequence = true ∧ c'.previous_level = none) ∧
    (∀ (c : Chapter) (t : Int) (code : String) (c' : Chapter) (l : Level),
      c.start_timer t code = .ok (c', l) → c.valid_sequence = true →
      l.level_number ≠ 1 →
      (c'.valid_sequence = true ↔
        (l.level_number = c.prevNumber + 1 ∨
         c.prevSecretMatch l.code = true))) ∧
    (∀ (c : Chapter) (op : ChapterOp),
      c.valid_sequence = false → (c.applyOp op).valid_sequence = true →
      ∃ t code c' l, op = ChapterOp.start t code ∧
        c.start_timer t code = .ok (c', l) ∧ l.level_number = 1) := by
  refine ⟨?_, ?_, ?_⟩
  · intro c t code c' l h h1
    unfold Chapter.start_timer at h
    split at h
    · cases h
    · dsimp only at h
      split at h
      · simp only [Except.ok.injEq, Prod.mk.injEq] at h
        obtain ⟨hc, -⟩ := h
        subst hc
        exact ⟨rfl, rfl⟩
      · rename_i hln
        split at h
        · split at h
          · simp only [Except.ok.injEq, Prod.mk.injEq] at h
            obtain ⟨-, hl⟩ := h
            subst hl
            exact absurd h1 hln
          · simp only [Except.ok.injEq, Prod.mk.injEq] at h
            obtain ⟨-, hl⟩ := h
            subst hl
            exact absurd h1 hln
        · simp only [Except.ok.injEq, Prod.mk.injEq] at h
          obtain ⟨-, hl⟩ := h
          subst hl
          exact absurd h1 hln
  · intro c t code c' l h hv h1
    unfold Chapter.start_timer at h
    split at h
    · cases h
    · rename_i x idx lvl0 heq
      dsimp only at h
      split at h
      · simp only [Except.ok.injEq, Prod.mk.injEq] at h
        obtain ⟨-, hl⟩ := h
        rename_i hln
        subst hl
        exact absurd hln h1
      · split at h
        · rename_i hcond
          simp only [Except.ok.injEq, Prod.mk.injEq] at h
          obtain ⟨hc, hl⟩ := h
          subst hc
          subst hl
          simp only [Bool.and_eq_true, bne_iff_ne, ne_eq,
            Bool.not_eq_true'] at hcond
          simp [hcond.1, hcond.2]
        · rename_i hcond
          simp only [Except.ok.injEq, Prod.mk.injEq] at h
          obtain ⟨hc, hl⟩ := h
          subst hc
          subst hl
          simp only [hv, true_iff]
          by_cases hn : (Level.start_timer lvl0 t).level_number
              = c.prevNumber + 1
          · exact Or.inl hn
          · right
            by_cases hm : c.prevSecretMatch (Level.start_timer lvl0 t).code
                = true
            · exact hm
            · rw [Bool.not_eq_true] at hm
              exact absurd (by simp [Bool.and_eq_true, bne_iff_ne, hn, hm])
                hcond
  · intro c op hvF hvT
    cases op with
    | start t code =>
        rcases hst : c.start_timer t code with e | ⟨c1, lvl⟩
        · simp only [Chapter.applyOp, hst] at hvT
          exact absurd hvT (by simp [hvF])
        · simp only [Chapter.applyOp, hst] at hvT
          have hcopy := hst
          unfold Chapter.start_timer at hcopy
          split at hcopy
          · cases hcopy
          · dsimp only at hcopy
            split at hcopy
            · rename_i hln
              simp only [Except.ok.injEq, Prod.mk.injEq] at hcopy
              obtain ⟨-, hl⟩ := hcopy
              subst hl
              exact ⟨t, code, c1, _, rfl, hst, hln⟩
            · split at hcopy
              · rename_i hcv
                exact absurd hcv (by simp [hvF])
              · simp only [Except.ok.injEq, Prod.mk.injEq] at hcopy
                obtain ⟨hc, -⟩ := hcopy
                rw [← hc] at hvT
                dsimp only at hvT
                exact absurd hvT (by simp [hvF])
    | stop t =>
        rcases hst : c.stop_timer t with e | ⟨c1, r⟩
        · simp only [Chapter.applyOp, hst] at hvT
          exact absurd hvT (by simp [hvF])
        · simp only [Chapter.applyOp, hst] at hvT
          rw [Chapter.stop_timer_valid c t c1 r hst] at hvT
          exact absurd hvT (by simp [hvF])
    | abort =>
        rcases hab : c.abort_timer with e | c1
        · simp only [Chapter.applyOp, hab] at hvT
          exact absurd hvT (by simp [hvF])
        · simp only [Chapter.applyOp, hab] at hvT
          rw [Chapter.abort_timer_valid c c1 hab] at hvT
          cases hvT

/-- The outcome of starting the first level of the blank first chapter,
used as a concrete witness input. -/
def chapterE1started : Chapter × Level :=
  (chapterE1.start_timer 0 "E1M1").toOption.getD default

/-- C7 witness: the first-level rule applied to a concrete blank chapter
whose timer is started on E1M1. -/
theorem C7_witness :
    chapterE1.start_timer 0 "E1M1"
      = .ok (chapterE1started.1, chapterE1started.2) ∧
    chapterE1started.2.level_number = 1 ∧
    (chapterE1started.1.valid_sequence = true ∧
     chapterE1started.1.previous_level = none) :=
  ⟨by decide, by decide,
   C7_sequence_validity.1 chapterE1 0 "E1M1" chapterE1started.1
     chapterE1started.2 (by decide) (by decide)⟩

/-- C8: a `Chapter.stop_timer` call aggregates exactly when the stopped
level is final and the sequence is valid: then the chapter session time
becomes the sum of the levels' session times (absent ones contributing
zero), the diff is recomputed and the chapter-level PB rule is applied;
in every other call the chapter's own state (session time, PB, diff) is
left completely unchanged. -/
theorem C8_chapter_aggregation :
    ∀ (c : Chapter) (t : Int) (c' : Chapter) (r : Chapter.StopResult),
      c.stop_timer t = .ok (c', r) →
      (r.is_chapter_session = (r.level.final && c.valid_sequence)) ∧
      (r.is_chapter_session = true →
        (c'.lc, r.is_chapter_pb)
          = LCState.is_session_pb (LCState.set_diff
              { c.lc with
                  backup_session_time := c.lc.session_time,
                  session_time := some (Chapter.sessionSum c'.levels) }) ∧
        Chapter.sessionSum c'.levels
          = (c'.levels.map (fun x => x.lc.session_time.getD 0)).sum) ∧
      (r.is_chapter_session = false → c'.lc = c.lc) := by
  intro c t c' r h
  unfold Chapter.stop_timer at h
  split at h
  · cases h
  · split at h
    · cases h
    · split at h
      · cases h
      · rename_i idx lvl0 hget lvl is_level_pb hstop
        split at h
        · rename_i hfinal
          simp only [Except.ok.injEq, Prod.mk.injEq] at h
          obtain ⟨hc, hr⟩ := h
          subst hc
          subst hr
          refine ⟨?_, ?_, ?_⟩
          · dsimp only
            rw [hfinal]
          · intro _
            refine ⟨?_, Chapter.sessionSum_eq_total _⟩
            rfl
          · intro hfalse
            cases hfalse
        · rename_i hfinal
          simp only [Except.ok.injEq, Prod.mk.injEq] at h
          obtain ⟨hc, hr⟩ := h
          subst hc
          subst hr
          rw [Bool.not_eq_true] at hfinal
          refine ⟨?_, ?_, ?_⟩
          · dsimp only
            rw [hfinal]
          · intro hc
            simp at hc
          · intro _
            rfl

/-- A chapter whose final level E1M8 is running and whose sequence is
marked valid, used as a concrete witness input for the aggregation
rule. -/
def chapterE1atFinal : Chapter :=
  { ((chapterE1.start_timer 0 "E1M8").toOption.getD default).1 with
      valid_sequence := true }

/-- The outcome of stopping that chapter's timer at 5 µs. -/
def chapterE1stopped : Chapter × Chapter.StopResult :=
  (chapterE1atFinal.stop_timer 5).toOption.getD default

/-- C8 witness: the aggregation rule applied to the concrete chapter
state in which the final level finishes with a valid sequence. -/
theorem C8_witness :
    chapterE1atFinal.stop_timer 5
      = .ok (chapterE1stopped.1, chapterE1stopped.2) ∧
    chapterE1stopped.2.is_chapter_session
      = (chapterE1stopped.2.level.final && chapterE1atFinal.valid_sequence) :=
  ⟨by decide,
   (C8_chapter_aggregation chapterE1atFinal 5 chapterE1stopped.1
     chapterE1stopped.2 (by decide)).1⟩

/-- Whether a chapter serializes successfully (has a truthy chapter PB
or a level with a truthy PB). -/
def chapter_serializable (ch : Chapter) : Bool :=
  match ch.serialize with
  | .ok _ => true
  | .error _ => false

/-- Whether some chapter in the database both serializes successfully
and reports `is_modified`. -/
def anyModifiedSerializable (runs : RunsDB) : Bool :=
  runs.any (fun cd => cd.2.any (fun dc => dc.2.any
    (fun ch => chapter_serializable ch && ch.is_modified)))

/-- Step equation: an empty-serializing chapter is skipped. -/
theorem save_chapter_step_error (cat diff : String) (acc : SerRuns × Bool)
    (ch : Chapter) (e : PyErr) (hs : ch.serialize = .error e) :
    save_chapter_step cat diff acc ch = acc := by
  unfold save_chapter_step
  rw [hs]

/-- Step equation: a serializable chapter is folded in and contributes
its `is_modified` flag. -/
theorem save_chapter_step_ok (cat diff : String) (acc : SerRuns × Bool)
    (ch : Chapter) (sc : SerChapter) (hs : ch.serialize = .ok sc) :
    save_chapter_step cat diff acc ch
      = (save_add acc.1 cat diff sc, acc.2 || ch.is_modified) := by
  unfold save_chapter_step
  rw [hs]

/-- The modified flag accumulated over one chapter list of the save
loop. -/
theorem save_chapter_fold_modified (cat diff : String) (chs : List Chapter) :
    ∀ (sr : SerRuns) (m : Bool),
      (chs.foldl (save_chapter_step cat diff) (sr, m)).2
        = (m || chs.any (fun ch => chapter_serializable ch && ch.is_modified)) := by
  induction chs with
  | nil => intro sr m; simp
  | cons ch chs ih =>
      intro sr m
      rcases hs : ch.serialize with e | sc
      · have hcs : chapter_serializable ch = false := by
          unfold chapter_serializable
          rw [hs]
        rw [List.foldl_cons, save_chapter_step_error cat diff (sr, m) ch e hs,
            ih sr m, List.any_cons, hcs]
        simp
      · have hcs : chapter_serializable ch = true := by
          unfold chapter_serializable
          rw [hs]
        rw [List.foldl_cons, save_chapter_step_ok cat diff (sr, m) ch sc hs,
            ih, List.any_cons, hcs]
        simp [Bool.or_assoc]

/-- `save_chapter_fold_modified` for an arbitrary accumulator. -/
theorem save_chapter_fold_modified' (cat diff : String) (chs : List Chapter)
    (acc : SerRuns × Bool) :
    (chs.foldl (save_chapter_step cat diff) acc).2
      = (acc.2 || chs.any (fun ch => chapter_serializable ch && ch.is_modified)) := by
  obtain ⟨sr, m⟩ := acc
  exact save_chapter_fold_modified cat diff chs sr m

/-- The modified flag accumulated over the difficulty level of the save
loop. -/
theorem save_diff_fold_modified (cat : String)
    (dmap : List (String × List Chapter)) :
    ∀ acc : SerRuns × Bool,
      (dmap.foldl
          (fun acc dc => dc.2.foldl (save_chapter_step cat dc.1) acc) acc).2
        = (acc.2 || dmap.any (fun dc => dc.2.any
            (fun ch => chapter_serializable ch && ch.is_modified))) := by
  induction dmap with
  | nil => intro acc; simp
  | cons dc rest ih =>
      intro acc
      simp only [List.foldl_cons, List.any_cons]
      rw [ih, save_chapter_fold_modified']
      simp [Bool.or_assoc]

/-- The modified flag accumulated over the whole save loop. -/
theorem save_fold_modified (runs : RunsDB) :
    ∀ acc : SerRuns × Bool,
      (save_fold runs acc).2 = (acc.2 || anyModifiedSerializable runs) := by
  induction runs with
  | nil => intro acc; simp [save_fold, anyModifiedSerializable]
  | cons cd rest ih =>
      intro acc
      unfold save_fold at ih ⊢
      unfold anyModifiedSerializable at ih ⊢
      simp only [List.foldl_cons, List.any_cons]
      rw [ih, save_diff_fold_modified]
      simp [Bool.or_assoc]

/-- C3 counterexample: a chapter that reports `is_modified` but has no
personal best anywhere serializes empty and is skipped, so with an
unchanged UI config `save` performs no write although a chapter reports
`isModified()` — the claimed biconditional fails.  (Such a chapter is
reachable: record a PB during a session, then delete it; `modified`
stays true while the PB is gone.) -/
theorem C3_counterexample :
    ({ chapterE1 with lc := { chapterE1.lc with modified := true } }
        : Chapter).is_modified = true ∧
    (FileDude.save
        [("Any%", [("Nightmare!",
          [{ chapterE1 with lc := { chapterE1.lc with modified := true } }])])]
        [] (some [])).written = false := by
  constructor
  · decide
  · decide

/-- C3 (amended): `FileDude.save` performs a write iff the UI config
differs from the one held at the last load (or no load happened), or at
least one Chapter that serializes successfully — it or one of its levels
has a truthy personal best — reports `isModified()`; a modified chapter
with nothing serializable does not trigger a write. -/
theorem C3_save_write_condition (runs : RunsDB) (gui_config : GuiConfig)
    (old_gui : Option GuiConfig) :
    (FileDude.save runs gui_config old_gui).written
      = (gui_changed gui_config old_gui || anyModifiedSerializable runs) := by
  unfold FileDude.save
  have h := save_fold_modified runs ([], gui_changed gui_config old_gui)
  simp only at h ⊢
  rw [← h]

/-- A blank first chapter loaded with a 61 s chapter PB. -/
def chapterPB61 : Chapter := (Chapter.init 1 none (some 61000000)).getD default

/-- A blank first chapter loaded with a 62 s chapter PB. -/
def chapterPB62 : Chapter := (Chapter.init 1 none (some 62000000)).getD default

/-- C1: `FileDude.save`, run on a grid whose category holds chapter PBs
under two difficulties, emits a serialized structure containing ONLY the
second difficulty: when the category key already exists but the
difficulty key does not, the `except KeyError` fallback assigns
`serialized["runs"][category] = {difficulty: [chapter]}`, overwriting
the whole category dict and discarding the PB serialized under the
earlier difficulty — so that PB is absent from the durable form and
blank after reconstruction, although it was live and the write condition
held (the GUI config changed). -/
theorem C1_save_drops_earlier_difficulty :
    FileDude.save
        [("Any%", [("I\x27m Too Young To Die", [chapterPB61]),
                   ("Hey, Not Too Rough", [chapterPB62])])]
        [("window_size", "800x600")] (some [])
      = ⟨true, [("Any%", [("Hey, Not Too Rough",
          [⟨1, some 62, some 0, []⟩])])]⟩ := by
  decide
